import Mathlib

/-!
Verification of the identity-provider core (src/core/idp.go).

The development shallowly embeds the Go code: the key cache (patrickmn
go-cache), the key-fetching helpers (getKey, getVerificationKey,
getConsentKey), Connect, the eviction handler refreshKeyCache, the JWT
parsing performed by dgrijalva jwt-go v3 with MapClaims (as invoked by
getChallengeToken), NewChallenge and GetChallenge.

Modelling conventions:
- Time is modelled as Go's time.Time stores it: whole seconds plus a
  nanosecond remainder (produced values satisfy 0 ≤ nsec < 10^9; theorems
  carry such bounds as hypotheses where they matter).  time.Time.Before is
  the strict lexicographic comparison, time.Unix(sec, 0) has nsec = 0, and
  Time.Unix() returns the seconds field.  A single Instant stands for all
  time.Now() calls made during one operation.
- RSA keys are abstracted to identifiers (Nat); a token's sigOK field
  states whether its signature verifies under the cached verification key.
- Go's interface values stored in the cache and in sessions become small
  inductive types; a failed Go type assertion (x.(T) without comma-ok) and
  an out-of-range index become an explicit panic outcome.
- Fallible network interactions are parameters: a FetchResp is the
  authorization server's response to one key-publishing request, a Bool is
  the outcome of the client-credentials login.
- JSON numbers carried by claims are modelled at integer precision (the
  code truncates float64 claims to int64 before use, both in jwt-go's
  expiry check and in time.Unix).
-/

namespace IdpCore

/-- Model of a point in time as Go's time.Time stores it: seconds and a
nanosecond remainder. -/
structure Instant where
  sec : Int
  nsec : Int
deriving DecidableEq, Repr

/-- Go time.Time.Before: strict lexicographic comparison of
(seconds, nanoseconds). -/
def Instant.before (a b : Instant) : Bool :=
  decide (a.sec < b.sec) || (decide (a.sec = b.sec) && decide (a.nsec < b.nsec))

/-- Go time.Time.UnixNano: total nanoseconds. -/
def Instant.toNanos (a : Instant) : Int :=
  a.sec * 1000000000 + a.nsec

theorem Instant.before_iff (a b : Instant) :
    a.before b = true ↔ (a.sec < b.sec ∨ (a.sec = b.sec ∧ a.nsec < b.nsec)) := by
  simp [Instant.before]

/-- Equality of Except results is decidable when both components are;
used to evaluate theorems about GetChallenge on concrete inputs. -/
instance instDecEqExcept {ε α : Type} [DecidableEq ε] [DecidableEq α] :
    DecidableEq (Except ε α) := fun a b =>
  match a, b with
  | .error e1, .error e2 =>
    if h : e1 = e2 then .isTrue (by rw [h])
    else .isFalse (by intro hc; injection hc with h2; exact h h2)
  | .error _, .ok _ => .isFalse (by intro hc; cases hc)
  | .ok _, .error _ => .isFalse (by intro hc; cases hc)
  | .ok a1, .ok a2 =>
    if h : a1 = a2 then .isTrue (by rw [h])
    else .isFalse (by intro hc; injection hc with h2; exact h h2)

/-- Values held by the go-cache instance.  The cache stores interface
values; this core only ever stores rsa.PublicKey and rsa.PrivateKey
pointers (abstracted to identifiers), but a defensive consumer must also
handle any other dynamic type. -/
inductive CacheVal
| rsaPub (k : Nat)
| rsaPriv (k : Nat)
| otherVal
deriving DecidableEq, Repr

/-- Model of the go-cache used as the key cache: an association list from
key strings to values with an absolute expiration in nanoseconds (0 means
no expiration), plus the cache-wide default TTL fixed at construction
(config.KeyCacheExpiration). -/
structure Cache where
  items : List (String × CacheVal × Int)
  defaultTTL : Int
deriving DecidableEq, Repr

def lookupItem : List (String × CacheVal × Int) → String → Option (CacheVal × Int)
| [], _ => none
| (k, v, e) :: rest, key => if k = key then some (v, e) else lookupItem rest key

/-- go-cache Get: a stored item whose nonzero expiration is strictly
before the current time is reported as absent. -/
def cacheGet (c : Cache) (key : String) (now : Instant) : Option CacheVal :=
  match lookupItem c.items key with
  | none => none
  | some (v, e) => if 0 < e ∧ e < now.toNanos then none else some v

/-- go-cache Set with cache.DefaultExpiration: replaces any entry under
the key; the new expiration is now plus the default TTL when that TTL is
positive, and 0 (never) otherwise. -/
def cacheSet (c : Cache) (key : String) (v : CacheVal) (now : Instant) : Cache :=
  ⟨(key, v, if 0 < c.defaultTTL then now.toNanos + c.defaultTTL else 0)
      :: c.items.filter (fun it => it.1 != key),
   c.defaultTTL⟩

/-- go-cache delete of one key, as performed just before the eviction
handler runs for it. -/
def cacheDelete (c : Cache) (key : String) : Cache :=
  ⟨c.items.filter (fun it => it.1 != key), c.defaultTTL⟩

def VerifyPublicKey : String := "VerifyPublic"

def ConsentPrivateKey : String := "ConsentPrivate"

/-- Errors returned by the cache consumers GetVerificationKey and
GetConsentKey (core.ErrorNoKey, core.ErrorBadKey; the error values are
declared in this repository outside src/, their identity is all that is
used here). -/
inductive KeyErr
| noKey
| badKey
deriving DecidableEq, Repr

/-- GetVerificationKey (idp.go lines 219-231): cache miss is ErrorNoKey, a
cached value that is not an rsa.PublicKey is ErrorBadKey, otherwise the
cached key is returned. -/
def GetVerificationKey (c : Cache) (now : Instant) : Except KeyErr Nat :=
  match cacheGet c VerifyPublicKey now with
  | none => .error .noKey
  | some (.rsaPub k) => .ok k
  | some _ => .error .badKey

/-- GetConsentKey (idp.go lines 205-217): cache miss is ErrorNoKey, a
cached value that is not an rsa.PrivateKey is ErrorBadKey, otherwise the
cached key is returned. -/
def GetConsentKey (c : Cache) (now : Instant) : Except KeyErr Nat :=
  match cacheGet c ConsentPrivateKey now with
  | none => .error .noKey
  | some (.rsaPriv k) => .ok k
  | some _ => .error .badKey

/-- Decoded shape of one JWK entry of the key-set document, as seen by
gojwk after Unmarshal: an RSA public key, an RSA private key (which also
carries a decodable public part), a key of some non-RSA type, or an entry
whose typed decoding fails. -/
inductive JWK
| rsaPublic (k : Nat)
| rsaPrivate (k : Nat)
| nonRSA
| undecodable
deriving DecidableEq, Repr

/-- Error classes surfaced by the key-fetching helpers: an HTTP
transport/body-read failure, a gojwk.Unmarshal failure, or a failure of
DecodePublicKey/DecodePrivateKey on the first key entry. -/
inductive KeyFetchErr
| transport
| decode
| jwkDecode
deriving DecidableEq, Repr

/-- Response of the key-publishing endpoint to one GET, as consumed by
getKey: a transport or body-read error, a body that gojwk fails to
unmarshal, or a decoded key-set document with its list of keys. -/
inductive FetchResp
| transportErr
| decodeErr
| doc (keys : List JWK)
deriving DecidableEq, Repr

/-- Outcome of a Go call that can return a value, return an error, or
panic. -/
inductive KRes (α : Type)
| panic
| err (e : KeyFetchErr)
| ok (a : α)
deriving DecidableEq, Repr

/-- getKey (idp.go lines 81-101): transport and unmarshal failures are
returned as errors; on success the code returns key.Keys[0] with no length
check, so a document whose key list is empty causes an index-out-of-range
panic. -/
def getKey : FetchResp → KRes JWK
| .transportErr => .err .transport
| .decodeErr => .err .decode
| .doc [] => .panic
| .doc (k :: _) => .ok k

/-- getVerificationKey (idp.go lines 104-116): getKey, then
jwk.DecodePublicKey, then an unchecked interface assertion to
rsa.PublicKey (which panics when the decoded key is of a non-RSA type).
An RSA private JWK still exposes its public part to DecodePublicKey. -/
def getVerificationKey (r : FetchResp) : KRes Nat :=
  match getKey r with
  | .panic => .panic
  | .err e => .err e
  | .ok (.rsaPublic k) => .ok k
  | .ok (.rsaPrivate k) => .ok k
  | .ok .nonRSA => .panic
  | .ok .undecodable => .err .jwkDecode

/-- getConsentKey (idp.go lines 119-131): getKey, then
jwk.DecodePrivateKey, then an interface assertion to rsa.PrivateKey.
DecodePrivateKey fails on entries that do not carry RSA private material. -/
def getConsentKey (r : FetchResp) : KRes Nat :=
  match getKey r with
  | .panic => .panic
  | .err e => .err e
  | .ok (.rsaPrivate k) => .ok k
  | .ok _ => .err .jwkDecode

/-- Errors of Connect: a failed client-credentials login, or a failed key
fetch (whose error is returned unchanged). -/
inductive ConnErr
| loginFailed
| fetch (e : KeyFetchErr)
deriving DecidableEq, Repr

/-- Outcome of Connect. -/
inductive ConnRes
| panic
| err (e : ConnErr)
| ok
deriving DecidableEq, Repr

/-- Connect (idp.go lines 161-181): login, then fetch the verification
key, then fetch the consent key; any failure returns immediately.  Both
cache writes happen only after both fetches succeeded.  loginOK is the
outcome of the client-credentials exchange, vresp and cresp the endpoint's
responses to the two key requests. -/
def Connect (loginOK : Bool) (vresp cresp : FetchResp) (c : Cache) (now : Instant) :
    ConnRes × Cache :=
  if !loginOK then (.err .loginFailed, c)
  else
    match getVerificationKey vresp with
    | .panic => (.panic, c)
    | .err e => (.err (.fetch e), c)
    | .ok vk =>
      match getConsentKey cresp with
      | .panic => (.panic, c)
      | .err e => (.err (.fetch e), c)
      | .ok ck =>
        (.ok, cacheSet (cacheSet c VerifyPublicKey (.rsaPub vk) now)
                ConsentPrivateKey (.rsaPriv ck) now)

/-- refreshKeyCache (idp.go lines 57-78), the OnEvicted handler installed
by NewIDP: for the two known roles it re-fetches the key and, only on
success, re-inserts it with the cache's default TTL; a fetch error leaves
the cache untouched; any other key is ignored.  The result none models a
panic escaping the handler (possible because getVerificationKey and
getConsentKey can panic). -/
def refreshKeyCache (vresp cresp : FetchResp) (key : String) (c : Cache) (now : Instant) :
    Option Cache :=
  if key = VerifyPublicKey then
    match getVerificationKey vresp with
    | .panic => none
    | .err _ => some c
    | .ok k => some (cacheSet c VerifyPublicKey (.rsaPub k) now)
  else if key = ConsentPrivateKey then
    match getConsentKey cresp with
    | .panic => none
    | .err _ => some c
    | .ok k => some (cacheSet c ConsentPrivateKey (.rsaPriv k) now)
  else some c

/-- Element of a JSON array claim value, as the code sees it through
[]interface{}: a string, or a value of any other dynamic type. -/
inductive SV
| str (s : String)
| nonstr
deriving DecidableEq, Repr

/-- Dynamic value of one JWT claim (an interface value decoded from JSON):
a number (float64, modelled at integer precision), a string, an array, or
a value of any other shape, including absence of the expected type. -/
inductive CV
| num (n : Int)
| str (s : String)
| arr (xs : List SV)
| otherShape
deriving DecidableEq, Repr

/-- Model of a syntactically well-formed JWT as jwt-go sees it after
decoding: whether the header's declared method is an RSA signing method,
the claim set, and whether the signature verifies under the cached
verification key. -/
structure Token where
  algRSA : Bool
  claims : List (String × CV)
  sigOK : Bool
deriving DecidableEq, Repr

def claimLookup : List (String × CV) → String → Option CV
| [], _ => none
| (k, v) :: rest, key => if k = key then some v else claimLookup rest key

def expKey : String := "exp"

def audKey : String := "aud"

def redirKey : String := "redir"

def scpKey : String := "scp"

def nbfKey : String := "nbf"

def iatKey : String := "iat"

/-- jwt-go MapClaims.VerifyExpiresAt with required=false, as run by
MapClaims.Valid inside Parse: a missing or non-numeric exp passes, exp = 0
passes, otherwise the current Unix second must be at most exp. -/
def verifyExp (cs : List (String × CV)) (nowSec : Int) : Bool :=
  match claimLookup cs expKey with
  | some (.num e) => if e = 0 then true else decide (nowSec ≤ e)
  | _ => true

/-- jwt-go MapClaims.VerifyNotBefore with required=false: a missing or
non-numeric nbf passes, nbf = 0 passes, otherwise nbf must be at most the
current Unix second. -/
def verifyNbf (cs : List (String × CV)) (nowSec : Int) : Bool :=
  match claimLookup cs nbfKey with
  | some (.num n) => if n = 0 then true else decide (n ≤ nowSec)
  | _ => true

/-- jwt-go MapClaims.VerifyIssuedAt with required=false: a missing or
non-numeric iat passes, iat = 0 passes, otherwise iat must be at most the
current Unix second. -/
def verifyIat (cs : List (String × CV)) (nowSec : Int) : Bool :=
  match claimLookup cs iatKey with
  | some (.num n) => if n = 0 then true else decide (n ≤ nowSec)
  | _ => true

/-- Errors produced by jwt.Parse as called from getChallengeToken: a
malformed token string; the keyfunc's rejections (a non-RSA signing method
per idp.go line 188, or the propagated cache errors ErrorNoKey and
ErrorBadKey, which Parse wraps as unverifiable); or a validation error
whose flags record which of the registered-claim checks and the signature
check failed. -/
inductive JwtError
| malformed
| badMethod
| unverifiableNoKey
| unverifiableBadKey
| validation (expired iatBad nbfBad sigBad : Bool)
deriving DecidableEq, Repr

/-- jwt.Parse of dgrijalva jwt-go v3 on an already-decoded token, with the
keyfunc of getChallengeToken (idp.go lines 185-192): the keyfunc rejects
non-RSA signing methods and propagates GetVerificationKey's errors; then
MapClaims.Valid checks exp, iat and nbf against the current Unix second,
the signature is verified, and any combination of failures is returned as
one validation error.  Parse returns the token with Valid=true exactly
when it returns no error. -/
def jwtParse (kc : Cache) (now : Instant) (t : Token) : Except JwtError Token :=
  if !t.algRSA then .error .badMethod
  else
    match GetVerificationKey kc now with
    | .error .noKey => .error .unverifiableNoKey
    | .error .badKey => .error .unverifiableBadKey
    | .ok _ =>
      if !verifyExp t.claims now.sec || !verifyIat t.claims now.sec
          || !verifyNbf t.claims now.sec || !t.sigOK then
        .error (.validation (!verifyExp t.claims now.sec) (!verifyIat t.claims now.sec)
          (!verifyNbf t.claims now.sec) (!t.sigOK))
      else .ok t

/-- getChallengeToken (idp.go lines 184-203): jwt.Parse with the RSA
keyfunc; a parse error is returned as is.  The subsequent token.Valid
check can never fire, since Parse returns a nil error only for a token it
marked valid, so the function coincides with the parse itself. -/
def getChallengeToken (kc : Cache) (now : Instant) (t : Token) : Except JwtError Token :=
  jwtParse kc now t

/-- Challenge (declared in this repository outside src/; field set and
meaning as used by idp.go and described by the spec's data model).  The
non-owning idp back-reference is not part of the observable state and is
omitted. -/
structure Challenge where
  Client : String
  Redirect : String
  User : String
  Scopes : List String
  Expires : Instant
deriving DecidableEq, Repr

/-- Errors of NewChallenge: core.ErrorBadRequest for a missing form value,
a propagated jwt.Parse error, or core.ErrorChallengeExpired. -/
inductive NCErr
| badRequest
| jwt (e : JwtError)
| challengeExpired
deriving DecidableEq, Repr

/-- Outcome of NewChallenge: a panic (from an unchecked claim type
assertion), an error with a nil challenge, or a built challenge. -/
inductive NCRes
| panic
| err (e : NCErr)
| ok (c : Challenge)
deriving DecidableEq, Repr

/-- Value of the challenge form field of the request: absent or empty,
present but not decodable as a JWT, or a decoded token. -/
inductive FormVal
| empty
| malformedTok
| tok (t : Token)
deriving DecidableEq, Repr

/-- Conversion of the scp claim's array as done by the loop at idp.go
lines 263-267: every element is type-asserted to string, so the first
non-string element panics (modelled as none). -/
def strList : List SV → Option (List String)
| [] => some []
| .str s :: rest => (strList rest).map (fun l => s :: l)
| .nonstr :: _ => none

/-- NewChallenge (idp.go lines 233-270): an empty challenge form value is
ErrorBadRequest; then getChallengeToken; then the claims are read with
unchecked type assertions in source order: exp (panic unless a number),
the expiry check against time.Now() (ErrorChallengeExpired when
time.Unix(exp, 0) is strictly before now), then aud, redir (panic unless
strings), the caller-supplied user, and scp (panic unless an array of
strings). -/
def NewChallenge (fv : FormVal) (kc : Cache) (now : Instant) (user : String) : NCRes :=
  match fv with
  | .empty => .err .badRequest
  | .malformedTok => .err (.jwt .malformed)
  | .tok t =>
    match getChallengeToken kc now t with
    | .error e => .err (.jwt e)
    | .ok t2 =>
      match claimLookup t2.claims expKey with
      | some (.num e) =>
        if (Instant.mk e 0).before now then .err .challengeExpired
        else
          match claimLookup t2.claims audKey with
          | some (.str aud) =>
            match claimLookup t2.claims redirKey with
            | some (.str rd) =>
              match claimLookup t2.claims scpKey with
              | some (.arr xs) =>
                match strList xs with
                | some scopes => .ok ⟨aud, rd, user, scopes, ⟨e, 0⟩⟩
                | none => .panic
              | _ => .panic
            | _ => .panic
          | _ => .panic
      | _ => .panic

/-- Value stored in the session under the challenge key: a Challenge
pointer, or a value of any other dynamic type. -/
inductive SessVal
| challenge (c : Challenge)
| otherVal
deriving DecidableEq, Repr

/-- Result of ChallengeStore.Get for the request: the store itself failed
(for example a cookie that no longer authenticates), or it produced a
session with its values. -/
inductive SessionGet
| storeErr
| sess (vals : List (String × SessVal))
deriving DecidableEq, Repr

/-- Fixed session/cookie name (core.SessionCookieName, declared in this
repository outside src/; only its fixedness matters: the same name is used
for the session lookup and for the values key). -/
def SessionCookieName : String := "challenge"

def sessLookup : List (String × SessVal) → String → Option SessVal
| [], _ => none
| (k, v) :: rest, key => if k = key then some v else sessLookup rest key

/-- Errors of GetChallenge: the session store's own error returned
unchanged, core.ErrorBadChallengeCookie, or core.ErrorChallengeExpired. -/
inductive GCErr
| storeFailed
| badChallengeCookie
| challengeExpired
deriving DecidableEq, Repr

/-- GetChallenge (idp.go lines 272-290): a store error is returned as is;
a missing or non-Challenge session value is ErrorBadChallengeCookie; a
stored Challenge whose Expires is strictly before time.Now() is
ErrorChallengeExpired; otherwise the stored Challenge is returned. -/
def GetChallenge (sg : SessionGet) (now : Instant) : Except GCErr Challenge :=
  match sg with
  | .storeErr => .error .storeFailed
  | .sess vals =>
    match sessLookup vals SessionCookieName with
    | some (.challenge c) =>
      if c.Expires.before now then .error .challengeExpired else .ok c
    | _ => .error .badChallengeCookie

/-! Sample concrete values used by witnesses and counterexamples. -/

/-- Cache holding the verification key under its role, never expiring,
default TTL of 60 seconds, as after a successful Connect. -/
def kcGood : Cache := ⟨[(VerifyPublicKey, .rsaPub 1, 0)], 60000000000⟩

/-- Token with the spec's example claims and the given expiry, an RSA
method and a signature that verifies under the cached key. -/
def tokGood (e : Int) : Token :=
  ⟨true,
   [(expKey, .num e), (audKey, .str "app-1"),
    (redirKey, .str "https://app.example/cb"),
    (scpKey, .arr [.str "openid", .str "profile"])],
   true⟩

/-- Small cache with an empty item list and a default TTL of 5 ns. -/
def cSmall : Cache := ⟨[], 5⟩

/-- Challenge as the spec's example builds it, with the given expiry. -/
def chalSample (ex : Instant) : Challenge :=
  ⟨"app-1", "https://app.example/cb", "alice", ["openid", "profile"], ex⟩

/-! Helper lemmas. -/

theorem lookupItem_filter_self (l : List (String × CacheVal × Int)) (key : String) :
    lookupItem (l.filter (fun it => it.1 != key)) key = none := by
  induction l with
  | nil => rfl
  | cons hd tl ih =>
    rcases hd with ⟨k, v, e⟩
    by_cases hk : k = key
    · simpa [List.filter_cons, hk] using ih
    · simp [List.filter_cons, hk, lookupItem, ih]

theorem cacheGet_delete (c : Cache) (key : String) (now : Instant) :
    cacheGet (cacheDelete c key) key now = none := by
  simp [cacheGet, cacheDelete, lookupItem_filter_self]

theorem jwtParse_ok_eq {kc : Cache} {now : Instant} {t t2 : Token}
    (h : jwtParse kc now t = .ok t2) : t2 = t := by
  unfold jwtParse at h
  split at h
  · exact absurd h (by simp)
  · split at h
    · exact absurd h (by simp)
    · exact absurd h (by simp)
    · split at h
      · exact absurd h (by simp)
      · exact ((Except.ok.injEq _ _).mp h).symm

theorem consent_ne_verify : ConsentPrivateKey ≠ VerifyPublicKey := by decide

/-! Claim theorems. -/

/-- C9: a request whose challenge form value is empty or absent yields a
nil Challenge and ErrorBadRequest at once, for every cache state, time and
user, so in particular without depending on the key cache (and the model
makes no network interaction on this path). -/
theorem NewChallenge_empty_badRequest :
    ∀ (kc : Cache) (now : Instant) (user : String),
      NewChallenge .empty kc now user = .err .badRequest :=
  fun _ _ _ => rfl

/-- C6: for every cache state, GetVerificationKey and GetConsentKey each
realize exactly one of three outcomes: ErrorNoKey on a missing entry, the
cached key when the entry has the expected RSA type (public for
verification, private for consent), and ErrorBadKey for an entry of any
other type; both are total functions of the cache (no panic). -/
theorem getKeys_trichotomy :
    ∀ (c : Cache) (now : Instant),
      ((cacheGet c VerifyPublicKey now = none ∧ GetVerificationKey c now = .error .noKey)
        ∨ (∃ k, cacheGet c VerifyPublicKey now = some (.rsaPub k)
            ∧ GetVerificationKey c now = .ok k)
        ∨ (∃ v, cacheGet c VerifyPublicKey now = some v
            ∧ (∀ k, v ≠ CacheVal.rsaPub k)
            ∧ GetVerificationKey c now = .error .badKey))
      ∧ ((cacheGet c ConsentPrivateKey now = none ∧ GetConsentKey c now = .error .noKey)
        ∨ (∃ k, cacheGet c ConsentPrivateKey now = some (.rsaPriv k)
            ∧ GetConsentKey c now = .ok k)
        ∨ (∃ v, cacheGet c ConsentPrivateKey now = some v
            ∧ (∀ k, v ≠ CacheVal.rsaPriv k)
            ∧ GetConsentKey c now = .error .badKey)) := by
  intro c now
  constructor
  · rcases h : cacheGet c VerifyPublicKey now with _ | v
    · exact Or.inl ⟨rfl, by simp [GetVerificationKey, h]⟩
    · cases v with
      | rsaPub k => exact Or.inr (Or.inl ⟨k, rfl, by simp [GetVerificationKey, h]⟩)
      | rsaPriv k =>
        exact Or.inr (Or.inr ⟨.rsaPriv k, rfl, (by intro k' hk; cases hk),
          (by simp [GetVerificationKey, h])⟩)
      | otherVal =>
        exact Or.inr (Or.inr ⟨.otherVal, rfl, (by intro k' hk; cases hk),
          (by simp [GetVerificationKey, h])⟩)
  · rcases h : cacheGet c ConsentPrivateKey now with _ | v
    · exact Or.inl ⟨rfl, by simp [GetConsentKey, h]⟩
    · cases v with
      | rsaPriv k => exact Or.inr (Or.inl ⟨k, rfl, by simp [GetConsentKey, h]⟩)
      | rsaPub k =>
        exact Or.inr (Or.inr ⟨.rsaPub k, rfl, (by intro k' hk; cases hk),
          (by simp [GetConsentKey, h])⟩)
      | otherVal =>
        exact Or.inr (Or.inr ⟨.otherVal, rfl, (by intro k' hk; cases hk),
          (by simp [GetConsentKey, h])⟩)

/-- C3 counterexample: a syntactically valid key-set document with zero
keys does not produce an error return; getKey (and with it
getVerificationKey and getConsentKey) panics on the unchecked Keys[0]
index. -/
theorem getKey_empty_doc_panics_cex :
    getKey (.doc []) = .panic
      ∧ getVerificationKey (.doc []) = .panic
      ∧ getConsentKey (.doc []) = .panic :=
  ⟨rfl, rfl, rfl⟩

/-- C3 amended: transport and decode failures are surfaced as ordinary
error returns by getKey, getVerificationKey and getConsentKey, and a
non-empty key set yields its first key; but a valid key-set document with
zero keys makes getKey panic instead of returning an error. -/
theorem getKey_surfaces_errors :
    ∀ (k : JWK) (ks : List JWK),
      getKey .transportErr = .err .transport
      ∧ getKey .decodeErr = .err .decode
      ∧ getKey (.doc []) = .panic
      ∧ getKey (.doc (k :: ks)) = .ok k
      ∧ getVerificationKey .transportErr = .err .transport
      ∧ getVerificationKey .decodeErr = .err .decode
      ∧ getConsentKey .transportErr = .err .transport
      ∧ getConsentKey .decodeErr = .err .decode :=
  fun _ _ => ⟨rfl, rfl, rfl, rfl, rfl, rfl, rfl, rfl⟩

/-- C10: when login succeeds but a key fetch fails, Connect returns that
fetch's error and the key cache is exactly the cache from before the call;
both writes happen only after both fetches succeed, so priming is
all-or-nothing.  The scenarios use separate response variables so that all
hypotheses are jointly satisfiable. -/
theorem Connect_failure_frame (c : Cache) (now : Instant) (vrF vrO crF : FetchResp)
    (eV eC : KeyFetchErr) (k : Nat)
    (hvF : getVerificationKey vrF = .err eV)
    (hvO : getVerificationKey vrO = .ok k)
    (hcF : getConsentKey crF = .err eC) :
    Connect true vrF crF c now = (.err (.fetch eV), c)
      ∧ Connect true vrO crF c now = (.err (.fetch eC), c)
      ∧ Connect false vrO crF c now = (.err .loginFailed, c) := by
  refine ⟨?_, ?_, rfl⟩
  · simp [Connect, hvF]
  · simp [Connect, hvO, hcF]

/-- C10 witness: the frame theorem applied to a transport failure of the
verification-key fetch, a successful verification-key response and a
decode failure of the consent-key fetch over the small cache. -/
theorem Connect_failure_frame_witness :
    Connect true .transportErr .decodeErr cSmall ⟨0, 0⟩ = (.err (.fetch .transport), cSmall)
      ∧ Connect true (.doc [.rsaPublic 7]) .decodeErr cSmall ⟨0, 0⟩
          = (.err (.fetch .decode), cSmall)
      ∧ Connect false (.doc [.rsaPublic 7]) .decodeErr cSmall ⟨0, 0⟩
          = (.err .loginFailed, cSmall) :=
  Connect_failure_frame cSmall ⟨0, 0⟩ .transportErr (.doc [.rsaPublic 7]) .decodeErr
    .transport .decode 7 (by decide) (by decide) (by decide)

/-- C8: behavior of the eviction handler.  After go-cache evicts a role
(the entry is deleted before the handler runs), a failing fetch leaves the
cache exactly as it was, so the role stays absent; a successful fetch
re-inserts the new key under that role; the re-inserted entry carries the
cache's default TTL; and for any key other than the two roles the handler
changes nothing.  Separate response variables keep all hypotheses jointly
satisfiable. -/
theorem refreshKeyCache_eviction_behavior (c : Cache) (now : Instant)
    (vrF vrO crF crO : FetchResp) (eV eC : KeyFetchErr) (kV kC : Nat) (other : String)
    (hvF : getVerificationKey vrF = .err eV)
    (hvO : getVerificationKey vrO = .ok kV)
    (hcF : getConsentKey crF = .err eC)
    (hcO : getConsentKey crO = .ok kC)
    (hne1 : other ≠ VerifyPublicKey) (hne2 : other ≠ ConsentPrivateKey)
    (hd : 0 < c.defaultTTL) :
    refreshKeyCache vrF crF VerifyPublicKey (cacheDelete c VerifyPublicKey) now
        = some (cacheDelete c VerifyPublicKey)
      ∧ cacheGet (cacheDelete c VerifyPublicKey) VerifyPublicKey now = none
      ∧ refreshKeyCache vrF crF ConsentPrivateKey (cacheDelete c ConsentPrivateKey) now
        = some (cacheDelete c ConsentPrivateKey)
      ∧ cacheGet (cacheDelete c ConsentPrivateKey) ConsentPrivateKey now = none
      ∧ refreshKeyCache vrO crO VerifyPublicKey c now
        = some (cacheSet c VerifyPublicKey (.rsaPub kV) now)
      ∧ refreshKeyCache vrO crO ConsentPrivateKey c now
        = some (cacheSet c ConsentPrivateKey (.rsaPriv kC) now)
      ∧ lookupItem (cacheSet c VerifyPublicKey (.rsaPub kV) now).items VerifyPublicKey
        = some (.rsaPub kV, now.toNanos + c.defaultTTL)
      ∧ refreshKeyCache vrF crF other c now = some c
      ∧ refreshKeyCache vrO crO other c now = some c := by
  refine ⟨?_, cacheGet_delete c VerifyPublicKey now, ?_,
    cacheGet_delete c ConsentPrivateKey now, ?_, ?_, ?_, ?_, ?_⟩
  · simp [refreshKeyCache, hvF]
  · simp [refreshKeyCache, consent_ne_verify, hcF]
  · simp [refreshKeyCache, hvO]
  · simp [refreshKeyCache, consent_ne_verify, hcO]
  · simp [cacheSet, lookupItem, hd]
  · simp [refreshKeyCache, hne1, hne2]
  · simp [refreshKeyCache, hne1, hne2]

/-- C8 witness: the eviction theorem applied to the small cache with a
transport failure as the failing fetch, singleton key-set documents as the
successful fetches, and an unrelated key name. -/
theorem refreshKeyCache_eviction_behavior_witness :
    refreshKeyCache .transportErr .transportErr VerifyPublicKey
        (cacheDelete cSmall VerifyPublicKey) ⟨0, 0⟩
        = some (cacheDelete cSmall VerifyPublicKey)
      ∧ cacheGet (cacheDelete cSmall VerifyPublicKey) VerifyPublicKey ⟨0, 0⟩ = none
      ∧ refreshKeyCache .transportErr .transportErr ConsentPrivateKey
        (cacheDelete cSmall ConsentPrivateKey) ⟨0, 0⟩
        = some (cacheDelete cSmall ConsentPrivateKey)
      ∧ cacheGet (cacheDelete cSmall ConsentPrivateKey) ConsentPrivateKey ⟨0, 0⟩ = none
      ∧ refreshKeyCache (.doc [.rsaPublic 7]) (.doc [.rsaPrivate 9]) VerifyPublicKey
        cSmall ⟨0, 0⟩ = some (cacheSet cSmall VerifyPublicKey (.rsaPub 7) ⟨0, 0⟩)
      ∧ refreshKeyCache (.doc [.rsaPublic 7]) (.doc [.rsaPrivate 9]) ConsentPrivateKey
        cSmall ⟨0, 0⟩ = some (cacheSet cSmall ConsentPrivateKey (.rsaPriv 9) ⟨0, 0⟩)
      ∧ lookupItem (cacheSet cSmall VerifyPublicKey (.rsaPub 7) ⟨0, 0⟩).items VerifyPublicKey
        = some (.rsaPub 7, (Instant.mk 0 0).toNanos + cSmall.defaultTTL)
      ∧ refreshKeyCache .transportErr .transportErr "x" cSmall ⟨0, 0⟩ = some cSmall
      ∧ refreshKeyCache (.doc [.rsaPublic 7]) (.doc [.rsaPrivate 9]) "x" cSmall ⟨0, 0⟩
        = some cSmall :=
  refreshKeyCache_eviction_behavior cSmall ⟨0, 0⟩ .transportErr (.doc [.rsaPublic 7])
    .transportErr (.doc [.rsaPrivate 9]) .transport .transport 7 9 "x"
    (by decide) (by decide) (by decide) (by decide) (by decide) (by decide) (by decide)

/-- C7 counterexample: when the session store's own read fails, the value
under the cookie name is not available and GetChallenge returns the
store's error, not ErrorBadChallengeCookie. -/
theorem GetChallenge_storeErr_cex :
    GetChallenge .storeErr ⟨50, 0⟩ = .error .storeFailed
      ∧ GetChallenge .storeErr ⟨50, 0⟩ ≠ .error .badChallengeCookie :=
  ⟨rfl, by simp [GetChallenge]⟩

/-- C7 amended: on every read GetChallenge realizes exactly one of four
outcomes: the session store's own error returned unchanged; a missing or
non-Challenge stored value yielding ErrorBadChallengeCookie; a stored
Challenge with Expires strictly in the past yielding ErrorChallengeExpired
(the expiry check runs on every read); and otherwise the stored Challenge. -/
theorem GetChallenge_cases :
    ∀ (sg : SessionGet) (now : Instant),
      (sg = .storeErr ∧ GetChallenge sg now = .error .storeFailed)
      ∨ (∃ vals, sg = .sess vals
          ∧ (((sessLookup vals SessionCookieName = none
                ∨ sessLookup vals SessionCookieName = some .otherVal)
              ∧ GetChallenge sg now = .error .badChallengeCookie)
            ∨ (∃ c, sessLookup vals SessionCookieName = some (.challenge c)
                ∧ ((c.Expires.before now = true
                    ∧ GetChallenge sg now = .error .challengeExpired)
                  ∨ (c.Expires.before now = false ∧ GetChallenge sg now = .ok c))))) := by
  intro sg now
  cases sg with
  | storeErr => exact Or.inl ⟨rfl, rfl⟩
  | sess vals =>
    refine Or.inr ⟨vals, rfl, ?_⟩
    rcases h : sessLookup vals SessionCookieName with _ | v
    · exact Or.inl ⟨Or.inl rfl, by simp [GetChallenge, h]⟩
    · cases v with
      | otherVal => exact Or.inl ⟨Or.inr rfl, by simp [GetChallenge, h]⟩
      | challenge c =>
        refine Or.inr ⟨c, rfl, ?_⟩
        by_cases hb : c.Expires.before now = true
        · exact Or.inl ⟨hb, by simp [GetChallenge, h, hb]⟩
        · exact Or.inr ⟨by simpa using hb, by simp [GetChallenge, h, hb]⟩

/-- C5 counterexample: a challenge whose expiry equals the current time
exactly is not rejected.  With exp = 100 and the current time exactly at
second 100 (nsec 0), NewChallenge returns the built Challenge, whose
Expires equals now, instead of ErrorChallengeExpired; likewise GetChallenge
returns a stored Challenge whose Expires equals now. -/
theorem expires_equal_now_accepted_cex :
    NewChallenge (.tok (tokGood 100)) kcGood ⟨100, 0⟩ "alice"
        = .ok (chalSample ⟨100, 0⟩)
      ∧ NewChallenge (.tok (tokGood 100)) kcGood ⟨100, 0⟩ "alice"
        ≠ .err .challengeExpired
      ∧ GetChallenge (.sess [(SessionCookieName, .challenge (chalSample ⟨100, 0⟩))]) ⟨100, 0⟩
        = .ok (chalSample ⟨100, 0⟩) :=
  ⟨by decide, by decide, by decide⟩

/-- C5 amended: every Challenge returned by NewChallenge or GetChallenge
has Expires at or after the current time; rejection with
ErrorChallengeExpired happens exactly when Expires is strictly before now,
so expiry equal to the current instant is accepted and the Challenge is
returned. -/
theorem returned_challenge_not_stale :
    (∀ (fv : FormVal) (kc : Cache) (now : Instant) (user : String) (c : Challenge),
        NewChallenge fv kc now user = .ok c → c.Expires.before now = false)
      ∧ (∀ (sg : SessionGet) (now : Instant) (c : Challenge),
        GetChallenge sg now = .ok c → c.Expires.before now = false) := by
  constructor
  · intro fv kc now user c h
    cases fv with
    | empty => exact absurd h (by simp [NewChallenge])
    | malformedTok => exact absurd h (by simp [NewChallenge])
    | tok t =>
      simp only [NewChallenge] at h
      repeat' split at h
      all_goals simp at h
      subst h
      simp_all
  · intro sg now c h
    cases sg with
    | storeErr => exact absurd h (by simp [GetChallenge])
    | sess vals =>
      simp only [GetChallenge] at h
      repeat' split at h
      all_goals simp at h
      subst h
      simp_all

/-- C5 witness: the amended theorem applied at the concrete inputs of the
counterexample, where both functions return a Challenge expiring exactly
at the current instant. -/
theorem returned_challenge_not_stale_witness :
    (chalSample ⟨100, 0⟩).Expires.before ⟨100, 0⟩ = false
      ∧ (chalSample ⟨100, 0⟩).Expires.before ⟨50, 0⟩ = false :=
  ⟨returned_challenge_not_stale.1 (.tok (tokGood 100)) kcGood ⟨100, 0⟩ "alice"
      (chalSample ⟨100, 0⟩) (by decide),
   returned_challenge_not_stale.2
      (.sess [(SessionCookieName, .challenge (chalSample ⟨100, 0⟩))]) ⟨50, 0⟩
      (chalSample ⟨100, 0⟩) (by decide)⟩

/-- C1 counterexample: a token whose exp (second 100) is in the past at
second 200, with a valid RSA signature under the cached key, makes
NewChallenge return the JWT library's validation error (the expired flag
set inside jwt.Parse), not ErrorChallengeExpired. -/
theorem NewChallenge_pastExp_not_challengeExpired_cex :
    NewChallenge (.tok (tokGood 100)) kcGood ⟨200, 0⟩ "alice"
        = .err (.jwt (.validation true false false false))
      ∧ NewChallenge (.tok (tokGood 100)) kcGood ⟨200, 0⟩ "alice"
        ≠ .err .challengeExpired :=
  ⟨by decide, by decide⟩

/-- C1 amended: for every token whose exp claim denotes a time strictly in
the past, NewChallenge returns a nil Challenge together with a non-nil
error, regardless of signature validity; but the error is
ErrorChallengeExpired only when jwt.Parse itself succeeds (which needs a
valid signature and an exp not before the current whole second, e.g. exp
equal to the current second or exp zero); whenever jwt.Parse fails — in
particular for any exp strictly before the current second with exp nonzero,
even with a valid signature — the parse error is returned instead. -/
theorem NewChallenge_pastExp_errors (t : Token) (kc : Cache) (now : Instant) (user : String)
    (e : Int) (hexp : claimLookup t.claims expKey = some (.num e))
    (hpast : (Instant.mk e 0).before now = true) :
    NewChallenge (.tok t) kc now user
      = (match jwtParse kc now t with
         | .error er => .err (.jwt er)
         | .ok _ => .err .challengeExpired) := by
  simp only [NewChallenge, getChallengeToken]
  rcases h : jwtParse kc now t with er | t2
  · rfl
  · have ht : t2 = t := jwtParse_ok_eq h
    subst ht
    simp only [hexp, hpast, if_true]

/-- C1 witness: the amended theorem at the counterexample's input, where
the returned error is the library's validation error. -/
theorem NewChallenge_pastExp_errors_witness :
    NewChallenge (.tok (tokGood 100)) kcGood ⟨200, 0⟩ "alice"
      = (match jwtParse kcGood ⟨200, 0⟩ (tokGood 100) with
         | .error er => .err (.jwt er)
         | .ok _ => .err .challengeExpired) :=
  NewChallenge_pastExp_errors (tokGood 100) kcGood ⟨200, 0⟩ "alice" 100
    (by decide) (by decide)

/-- Token with the spec's example claims plus an nbf claim that lies in
the future at second 50. -/
def tokNbf : Token :=
  ⟨true,
   [(expKey, .num 100), (nbfKey, .num 90), (audKey, .str "app-1"),
    (redirKey, .str "https://app.example/cb"),
    (scpKey, .arr [.str "openid", .str "profile"])],
   true⟩

/-- C2 counterexample: a token signed with the active key, exp strictly in
the future and well-formed aud/redir/scp still fails when it carries an
nbf claim in the future: jwt.Parse's registered-claim validation rejects
it and NewChallenge returns the validation error, not the Challenge the
claim predicts. -/
theorem NewChallenge_wellformed_nbf_cex :
    NewChallenge (.tok tokNbf) kcGood ⟨50, 0⟩ "alice"
        = .err (.jwt (.validation false false true false))
      ∧ NewChallenge (.tok tokNbf) kcGood ⟨50, 0⟩ "alice"
        ≠ .ok (chalSample ⟨100, 0⟩) :=
  ⟨by decide, by decide⟩

/-- C2 amended: for every token signed with the active RSA key (signature
valid under the cached verification key), whose exp is strictly in the
future, which passes the JWT library's remaining registered-claim checks
(no nbf or iat in the future), and whose aud, redir and scp claims are
well-formed, NewChallenge returns the Challenge with Client = aud,
Redirect = redir, Scopes = scp in order, Expires = the exp time, and
User = the caller-supplied user, with no error. -/
theorem NewChallenge_valid_token_ok (t : Token) (kc : Cache) (now : Instant) (user : String)
    (k : Nat) (e : Int) (aud rd : String) (xs : List SV) (scopes : List String)
    (hnsec : 0 ≤ now.nsec)
    (halg : t.algRSA = true) (hsig : t.sigOK = true)
    (hkey : cacheGet kc VerifyPublicKey now = some (.rsaPub k))
    (hexp : claimLookup t.claims expKey = some (.num e))
    (hfut : now.before ⟨e, 0⟩ = true)
    (hnbf : verifyNbf t.claims now.sec = true)
    (hiat : verifyIat t.claims now.sec = true)
    (haud : claimLookup t.claims audKey = some (.str aud))
    (hrd : claimLookup t.claims redirKey = some (.str rd))
    (hscp : claimLookup t.claims scpKey = some (.arr xs))
    (hstr : strList xs = some scopes) :
    NewChallenge (.tok t) kc now user = .ok ⟨aud, rd, user, scopes, ⟨e, 0⟩⟩ := by
  have hlt : now.sec < e := by
    rcases (Instant.before_iff now ⟨e, 0⟩).mp hfut with h | ⟨h1, h2⟩
    · exact h
    · simp at h2
      omega
  have hve : verifyExp t.claims now.sec = true := by
    unfold verifyExp
    rw [hexp]
    by_cases h0 : e = 0
    · simp [h0]
    · simp only [h0, if_false]
      exact decide_eq_true (le_of_lt hlt)
  have hparse : jwtParse kc now t = .ok t := by
    unfold jwtParse
    simp [halg, GetVerificationKey, hkey, hve, hiat, hnbf, hsig]
  have hnb : (Instant.mk e 0).before now = false := by
    rw [Bool.eq_false_iff]
    intro hb
    rcases (Instant.before_iff _ _).mp hb with h | ⟨h1, h2⟩
    · simp at h
      omega
    · simp at h1
      omega
  simp [NewChallenge, getChallengeToken, hparse, hexp, hnb, haud, hrd, hscp, hstr]

/-- C2 witness: the amended theorem at the spec's example token (claims
aud app-1, redir the callback URI, scp openid and profile, exp at second
100) at second 50 with user alice. -/
theorem NewChallenge_valid_token_ok_witness :
    NewChallenge (.tok (tokGood 100)) kcGood ⟨50, 0⟩ "alice"
      = .ok ⟨"app-1", "https://app.example/cb", "alice", ["openid", "profile"], ⟨100, 0⟩⟩ :=
  NewChallenge_valid_token_ok (tokGood 100) kcGood ⟨50, 0⟩ "alice" 1 100 "app-1"
    "https://app.example/cb" [.str "openid", .str "profile"] ["openid", "profile"]
    (by decide) (by decide) (by decide) (by decide) (by decide) (by decide) (by decide)
    (by decide) (by decide) (by decide) (by decide) (by decide)

/-- Shape check of the claim set as NewChallenge requires it: exp a
number, aud and redir strings, scp an array of strings; malformedShape is
true when any of these fails. -/
def malformedShape (cs : List (String × CV)) : Bool :=
  (match claimLookup cs expKey with | some (.num _) => false | _ => true)
  || (match claimLookup cs audKey with | some (.str _) => false | _ => true)
  || (match claimLookup cs redirKey with | some (.str _) => false | _ => true)
  || (match claimLookup cs scpKey with
      | some (.arr xs) => !(strList xs).isSome
      | _ => true)

/-- Token that parses and verifies (no registered claims checked by the
library are present) but whose exp claim is a string. -/
def tokBadExp : Token := ⟨true, [(expKey, .str "soon")], true⟩

/-- C4 counterexample: a token that parses and verifies successfully but
carries a non-numeric exp makes NewChallenge panic on the unchecked type
assertion, not return an error. -/
theorem NewChallenge_malformed_panics_cex :
    getChallengeToken kcGood ⟨50, 0⟩ tokBadExp = .ok tokBadExp
      ∧ malformedShape tokBadExp.claims = true
      ∧ NewChallenge (.tok tokBadExp) kcGood ⟨50, 0⟩ "alice" = .panic :=
  ⟨by decide, by decide, by decide⟩

/-- C4 amended: for every token that parses and verifies successfully but
whose claims are malformed in one of the listed ways, NewChallenge never
substitutes a default and never returns a Challenge: it panics on the
first failing type assertion, except that a numeric exp in the past is
still reported as ErrorChallengeExpired (the expiry check precedes the
aud/redir/scp assertions). -/
theorem NewChallenge_malformed_never_default (t : Token) (kc : Cache) (now : Instant)
    (user : String) (t2 : Token)
    (hparse : getChallengeToken kc now t = .ok t2)
    (hmal : malformedShape t.claims = true) :
    NewChallenge (.tok t) kc now user = .panic
      ∨ NewChallenge (.tok t) kc now user = .err .challengeExpired := by
  have ht : t = t2 := (jwtParse_ok_eq hparse).symm
  subst ht
  simp only [NewChallenge, hparse]
  rcases he : claimLookup t.claims expKey with _ | cv
  · left
    rfl
  · cases cv with
    | num e =>
      by_cases hb : (Instant.mk e 0).before now = true
      · right
        simp [hb]
      · left
        have hb' : (Instant.mk e 0).before now = false := by
          rwa [Bool.not_eq_true] at hb
        rcases ha : claimLookup t.claims audKey with _ | av
        · simp [hb']
        · cases av with
          | str a =>
            rcases hr : claimLookup t.claims redirKey with _ | rv
            · simp [hb']
            · cases rv with
              | str r =>
                rcases hs : claimLookup t.claims scpKey with _ | sv
                · simp [hb']
                · cases sv with
                  | arr xs =>
                    rcases hss : strList xs with _ | sl
                    · simp [hb', hss]
                    · exact absurd hmal
                        (by simp [malformedShape, he, ha, hr, hs, hss])
                  | num n => simp [hb']
                  | str s => simp [hb']
                  | otherShape => simp [hb']
              | num n => simp [hb']
              | arr ys => simp [hb']
              | otherShape => simp [hb']
          | num n => simp [hb']
          | arr ys => simp [hb']
          | otherShape => simp [hb']
    | str s =>
      left
      rfl
    | arr ys =>
      left
      rfl
    | otherShape =>
      left
      rfl

/-- C4 witness: the amended theorem applied to the string-exp token, where
the outcome is the panic branch. -/
theorem NewChallenge_malformed_never_default_witness :
    NewChallenge (.tok tokBadExp) kcGood ⟨50, 0⟩ "alice" = .panic
      ∨ NewChallenge (.tok tokBadExp) kcGood ⟨50, 0⟩ "alice" = .err .challengeExpired :=
  NewChallenge_malformed_never_default tokBadExp kcGood ⟨50, 0⟩ "alice" tokBadExp
    (by decide) (by decide)

end IdpCore
